import Mathlib

/-!
Verification development for the statistical validation and inference engine of
the `dashboard_tesis_pro` repository (modules `statistical_analysis.py` and
`data_validation.py`).

Modelling conventions used throughout this file:

* A pandas cell is a `Cell`: a rational number, a string, or a missing value
  (`Cell.none`, standing for `NaN`/`None`).  Python floats are modelled as
  rationals; comparisons such as `p_value < alpha` are exact rational
  comparisons (the float-rounding of hairline cases is outside the model).
* A `DataFrame` is an ordered list of named, dtype-tagged columns.
* Calls into external libraries (scipy, sklearn, statsmodels, numpy's `sqrt`,
  Python's number formatting) are not code of this repository; they are
  modelled as fields of an explicit `StatsLib` parameter, so every theorem
  quantifies over the library's behaviour.
* Python dictionaries (the result objects of `StatisticalAnalysis`) are
  modelled as association lists `List (String × PyVal)` in literal key order.
* A `try/except` block that turns an exception into an `{'error': ...}` dict
  is modelled by returning the error dict on the exceptional condition.  The
  text produced by `str(e)` is kept exact where the repository's behaviour
  depends on it (`"division by zero"` for `ZeroDivisionError`); for the other
  exception kinds a fixed descriptive token (`"KeyError"`, `"TypeError"`,
  `"ValueError"`) stands for the interpolated exception text.
-/

namespace DTP

/-- One pandas cell: a numeric value, a string value, or missing (`NaN`). -/
inductive Cell where
  | num (q : ℚ)
  | str (s : String)
  | none
  deriving DecidableEq

/-- `True` for a missing cell. -/
def Cell.isNone : Cell → Bool
  | .none => true
  | _ => false

/-- `True` for a string cell. -/
def Cell.isStr : Cell → Bool
  | .str _ => true
  | _ => false

/-- Numeric content of a cell (junk `0` off the numeric case; every use in
this file is guarded by an `isStr`/`isNone` check mirroring the source's
exception behaviour). -/
def Cell.toQ : Cell → ℚ
  | .num q => q
  | _ => 0

/-- Pandas elementwise equality: `NaN == x` is `False` for every `x`
(including `NaN` itself), otherwise structural equality. -/
def pdEq : Cell → Cell → Bool
  | .none, _ => false
  | _, .none => false
  | .num a, .num b => a == b
  | .str a, .str b => a == b
  | _, _ => false

/-- `Series.dropna()`: remove the missing cells, keeping order. -/
def dropna (l : List Cell) : List Cell := l.filter (fun c => !c.isNone)

/-- `Series.unique()`: distinct values in order of first appearance.
pandas counts `NaN` as one of the distinct values, so `Cell.none` is kept. -/
def pdUnique : List Cell → List Cell
  | [] => []
  | a :: l => a :: pdUnique (l.filter (fun x => x ≠ a))
termination_by l => l.length
decreasing_by
  exact Nat.lt_succ_of_le (List.length_filter_le _ _)

/-- Declared dtype of a pandas column, as far as the validator inspects it. -/
inductive Dtype where
  | object
  | int64
  | float64
  | other
  deriving DecidableEq

/-- One named column of a table. -/
structure Col where
  name : String
  dtype : Dtype
  values : List Cell
  deriving DecidableEq

/-- A table: an ordered collection of named columns. -/
structure DataFrame where
  cols : List Col
  deriving DecidableEq

/-- `df[name]`: the first column with the given name, if any (a missing
column raises `KeyError` in the source; callers of `dfGet` map `Option.none`
to the corresponding error dict). -/
def dfGet (df : DataFrame) (name : String) : Option (List Cell) :=
  (df.cols.find? (fun c => c.name == name)).map Col.values

/-- Number of rows of the table (all columns of a well-formed table have the
same length; `nRows` reads the first one, and the well-formedness is assumed
by hypothesis where a theorem needs it). -/
def nRows (df : DataFrame) : ℕ :=
  match df.cols with
  | [] => 0
  | c :: _ => c.values.length

/-- A Python value appearing inside a result dictionary. -/
inductive PyVal where
  | num (q : ℚ)
  | str (s : String)
  | bool (b : Bool)
  | list (l : List PyVal)
  | dict (l : List (String × PyVal))
  | none

/-- Group labels and other raw cells stored inside result dicts. -/
def cellVal : Cell → PyVal
  | .num q => .num q
  | .str s => .str s
  | .none => .none

/-- A result object of `StatisticalAnalysis`: a Python dict in literal key
order. -/
abbrev Result := List (String × PyVal)

/-- Dictionary lookup (the literal dicts built by the source have pairwise
distinct keys, so first-match lookup is exact). -/
def lookup : Result → String → Option PyVal
  | [], _ => Option.none
  | (k, v) :: r, key => if k = key then some v else lookup r key

/-- The `{'error': message}` dict returned on every failure path. -/
def errDict (msg : String) : Result := [("error", PyVal.str msg)]

/-- A result is an error result iff it carries the `'error'` key. -/
def isError (r : Result) : Bool := (lookup r "error").isSome

/-- Sum of a list of rationals. -/
def listSum (l : List ℚ) : ℚ := l.foldr (· + ·) 0

/-- `Series.mean()` over already-extracted numeric values (pandas divides by
the count; on an empty list the model yields `0` where pandas yields `NaN` —
no theorem below inspects that value). -/
def pdMean (l : List ℚ) : ℚ := listSum l / (l.length : ℚ)

/-- Sample variance with `ddof = 1`, as used by `Series.std()`. -/
def sampleVar (l : List ℚ) : ℚ :=
  listSum (l.map (fun x => (x - pdMean l) ^ 2)) / ((l.length : ℚ) - 1)

/-- Smallest element of a (nonempty) list of rationals. -/
def listMin (l : List ℚ) : ℚ := l.foldr min (l.headD 0)

/-- Largest element of a (nonempty) list of rationals. -/
def listMax (l : List ℚ) : ℚ := l.foldr max (l.headD 0)

/-- Insertion into a sorted list, for `sortQ`. -/
def insertQ (x : ℚ) : List ℚ → List ℚ
  | [] => [x]
  | y :: l => if x ≤ y then x :: y :: l else y :: insertQ x l

/-- Ascending insertion sort, used by the quantile computation. -/
def sortQ (l : List ℚ) : List ℚ := l.foldr insertQ []

/-- `Series.quantile(q)` with pandas' default linear interpolation. -/
def pdQuantile (l : List ℚ) (q : ℚ) : ℚ :=
  let s := sortQ l
  let n := s.length
  let h : ℚ := q * ((n : ℚ) - 1)
  let i : ℕ := h.floor.toNat
  let lo := s.getD i 0
  let hi := s.getD (i + 1) lo
  lo + (h - (i : ℚ)) * (hi - lo)

/-- The values of `column` at the rows where `group column == g` under pandas
equality — the model of `data[data[group_column] == g][column]`. -/
def selectWhere (gvals cvals : List Cell) (g : Cell) : List Cell :=
  (gvals.zip cvals).filterMap (fun p => if pdEq p.1 g then some p.2 else Option.none)

/-- Row list of a list of equally long columns
(the model of iterating a multi-column selection `data[vars]` row by row). -/
def rowsOf (ls : List (List Cell)) : List (List Cell) :=
  match ls with
  | [] => []
  | l :: _ => (List.range l.length).map (fun i => ls.map (fun c => c.getD i Cell.none))

/-- `data[vars].dropna()`: the rows in which none of the selected columns is
missing. -/
def completeRows (ls : List (List Cell)) : List (List Cell) :=
  (rowsOf ls).filter (fun r => !r.any Cell.isNone)

/-- Fitted OLS model, as consumed from `statsmodels` (`sm.OLS(...).fit()`).
`params`, `pvalues` and `conf_int` are aligned with `const` followed by the
predictors; `ypred` is `model.predict(X_with_const)`. -/
structure OLSFit where
  rsquared : ℚ
  rsquared_adj : ℚ
  fvalue : ℚ
  f_pvalue : ℚ
  params : List ℚ
  pvalues : List ℚ
  conf_int : List (ℚ × ℚ)
  ypred : List ℚ
  summary : String

/-- Fitted k-means model, as consumed from `sklearn.cluster.KMeans`. -/
structure KMFit where
  labels : List ℕ
  centers : List (List ℚ)
  inertia : ℚ

/-- The external statistical libraries used by `statistical_analysis.py`
(scipy.stats, sklearn, statsmodels, `np.sqrt`, Python number formatting).
These are collaborators, not code of this repository, so every operation is
parametrized by an arbitrary `StatsLib`. -/
structure StatsLib where
  sqrt : ℚ → ℚ
  ttest_1samp : List ℚ → ℚ → ℚ × ℚ
  t_interval : ℚ → ℚ → ℚ → ℚ → ℚ × ℚ
  ttest_ind : List ℚ → List ℚ → Bool → ℚ × ℚ
  f_oneway : List (List ℚ) → ℚ × ℚ
  chi2_contingency : List (List ℕ) → ℚ × ℚ × ℕ × List (List ℚ)
  pearsonr : List ℚ → List ℚ → ℚ × ℚ
  spearmanr : List ℚ → List ℚ → ℚ × ℚ
  kendalltau : List ℚ → List ℚ → ℚ × ℚ
  ols : List ℚ → List (List ℚ) → OLSFit
  fit_transform : List (List ℚ) → List (List ℚ)
  inverse_transform : List (List ℚ) → List (List ℚ) → List (List ℚ)
  kmeansFit : ℕ → ℕ → List (List ℚ) → KMFit
  fmt : ℕ → ℚ → String
  pyStr : ℚ → String

/-- `Series.std()` (`ddof = 1`): square root of the sample variance, with the
square root supplied by the library. -/
def pdStd (lib : StatsLib) (l : List ℚ) : ℚ := lib.sqrt (sampleVar l)

/-! ### Interpretation helpers (`_interpret_*` methods)

`lib.fmt n x` models Python's `f"{x:.nf}"` and `lib.pyStr x` models
`f"{x}"`. -/

/-- `_interpret_t_test_one_sample`. -/
def interpret_t_test_one_sample (lib : StatsLib)
    (sample_mean test_value p_value alpha : ℚ) : String :=
  if p_value < alpha then
    let direction := if sample_mean > test_value then "mayor" else "menor"
    "La media muestral (" ++ lib.fmt 3 sample_mean ++ ") es significativamente "
      ++ direction ++ " que el valor de prueba (" ++ lib.pyStr test_value
      ++ ") (p = " ++ lib.fmt 4 p_value ++ ")."
  else
    "No hay evidencia suficiente para concluir que la media poblacional difiere de "
      ++ lib.pyStr test_value ++ " (p = " ++ lib.fmt 4 p_value ++ ")."

/-- `_interpret_t_test_two_samples`. -/
def interpret_t_test_two_samples (lib : StatsLib)
    (mean1 mean2 p_value alpha : ℚ) : String :=
  if p_value < alpha then
    let higher_group := if mean1 > mean2 then "Grupo 1" else "Grupo 2"
    "Existe una diferencia significativa entre los grupos (p = "
      ++ lib.fmt 4 p_value ++ "). " ++ higher_group ++ " tiene una media mayor."
  else
    "No hay evidencia suficiente de diferencia entre los grupos (p = "
      ++ lib.fmt 4 p_value ++ ")."

/-- `_interpret_anova`. -/
def interpret_anova (lib : StatsLib) (f_stat p_value alpha eta_squared : ℚ) : String :=
  if p_value < alpha then
    let effect_size :=
      if eta_squared < 6 / 100 then "pequeño"
      else if eta_squared < 14 / 100 then "mediano" else "grande"
    "Existe al menos una diferencia significativa entre los grupos (F = "
      ++ lib.fmt 3 f_stat ++ ", p = " ++ lib.fmt 4 p_value
      ++ "). Tamaño del efecto: " ++ effect_size ++ " (η² = "
      ++ lib.fmt 3 eta_squared ++ ")."
  else
    "No hay evidencia de diferencias significativas entre los grupos (F = "
      ++ lib.fmt 3 f_stat ++ ", p = " ++ lib.fmt 4 p_value ++ ")."

/-- `_interpret_chi_square`. -/
def interpret_chi_square (lib : StatsLib) (chi2 p_value alpha cramers_v : ℚ) : String :=
  if p_value < alpha then
    let strength :=
      if cramers_v < 3 / 10 then "débil"
      else if cramers_v < 5 / 10 then "moderada" else "fuerte"
    "Existe una asociación significativa entre las variables (χ² = "
      ++ lib.fmt 3 chi2 ++ ", p = " ++ lib.fmt 4 p_value
      ++ "). Fuerza de asociación: " ++ strength ++ " (V = "
      ++ lib.fmt 3 cramers_v ++ ")."
  else
    "No hay evidencia de asociación entre las variables (χ² = "
      ++ lib.fmt 3 chi2 ++ ", p = " ++ lib.fmt 4 p_value ++ ")."

/-- `_interpret_correlation_strength`. -/
def interpret_correlation_strength (abs_corr : ℚ) : String :=
  if abs_corr < 1 / 10 then "muy débil"
  else if abs_corr < 3 / 10 then "débil"
  else if abs_corr < 5 / 10 then "moderada"
  else if abs_corr < 7 / 10 then "fuerte"
  else "muy fuerte"

/-- `_interpret_correlation`. -/
def interpret_correlation (lib : StatsLib)
    (corr_coef p_value alpha : ℚ) (strength : String) : String :=
  let direction := if corr_coef > 0 then "positiva" else "negativa"
  if p_value < alpha then
    "Existe una correlación " ++ direction ++ " " ++ strength
      ++ " y estadísticamente significativa (r = " ++ lib.fmt 3 corr_coef
      ++ ", p = " ++ lib.fmt 4 p_value ++ ")."
  else
    "La correlación " ++ direction ++ " " ++ strength
      ++ " no es estadísticamente significativa (r = " ++ lib.fmt 3 corr_coef
      ++ ", p = " ++ lib.fmt 4 p_value ++ ")."

/-- `_interpret_regression`. -/
def interpret_regression (lib : StatsLib) (r_squared f_p_value alpha : ℚ) : String :=
  if f_p_value < alpha then
    "El modelo es estadísticamente significativo (p = " ++ lib.fmt 4 f_p_value
      ++ ") y explica " ++ lib.fmt 1 (r_squared * 100)
      ++ "% de la varianza en la variable dependiente."
  else
    "El modelo no es estadísticamente significativo (p = "
      ++ lib.fmt 4 f_p_value ++ ")."

/-! ### The `StatisticalAnalysis` operations

Each method of the Python class reads `self.results_history`, possibly
appends the result it returns, and is otherwise pure given the table and
parameters; the embedding threads the history list explicitly, returning
`(result, new history)`. -/

/-- `t_test_one_sample(data, column, test_value, alpha=0.05)`. -/
def t_test_one_sample (lib : StatsLib) (df : DataFrame) (column : String)
    (test_value alpha : ℚ) (hist : List Result) : Result × List Result :=
  match dfGet df column with
  | Option.none => (errDict "Error en prueba t de una muestra: KeyError", hist)
  | some colVals =>
    let sample_cells := dropna colVals
    if sample_cells.any Cell.isStr then
      (errDict "Error en prueba t de una muestra: TypeError", hist)
    else
      let sample_data := sample_cells.map Cell.toQ
      let tp := lib.ttest_1samp sample_data test_value
      let n := sample_data.length
      let mean := pdMean sample_data
      let std := pdStd lib sample_data
      let se := std / lib.sqrt (n : ℚ)
      let ci := lib.t_interval (1 - alpha) ((n : ℚ) - 1) mean se
      let result : Result := [
        ("test_type", .str "Prueba t de una muestra"),
        ("variable", .str column),
        ("test_value", .num test_value),
        ("sample_size", .num (n : ℚ)),
        ("sample_mean", .num mean),
        ("sample_std", .num std),
        ("standard_error", .num se),
        ("t_statistic", .num tp.1),
        ("p_value", .num tp.2),
        ("alpha", .num alpha),
        ("is_significant", .bool (decide (tp.2 < alpha))),
        ("confidence_interval", .list [.num ci.1, .num ci.2]),
        ("effect_size", .num ((mean - test_value) / std)),
        ("interpretation",
          .str (interpret_t_test_one_sample lib mean test_value tp.2 alpha))]
      (result, hist ++ [result])

/-- `t_test_two_samples(data, column, group_column, alpha=0.05, equal_var=True)`. -/
def t_test_two_samples (lib : StatsLib) (df : DataFrame)
    (column group_column : String) (alpha : ℚ) (equal_var : Bool)
    (hist : List Result) : Result × List Result :=
  match dfGet df group_column with
  | Option.none => (errDict "Error en prueba t de dos muestras: KeyError", hist)
  | some gvals =>
    let groups := pdUnique gvals
    if groups.length ≠ 2 then
      (errDict "La variable de agrupación debe tener exactamente 2 grupos", hist)
    else
      match dfGet df column with
      | Option.none => (errDict "Error en prueba t de dos muestras: KeyError", hist)
      | some cvals =>
        let g0 := groups.getD 0 Cell.none
        let g1 := groups.getD 1 Cell.none
        let cells1 := dropna (selectWhere gvals cvals g0)
        let cells2 := dropna (selectWhere gvals cvals g1)
        if cells1.any Cell.isStr ∨ cells2.any Cell.isStr then
          (errDict "Error en prueba t de dos muestras: TypeError", hist)
        else
          let group1_data := cells1.map Cell.toQ
          let group2_data := cells2.map Cell.toQ
          let tp := lib.ttest_ind group1_data group2_data equal_var
          let n1 := group1_data.length
          let n2 := group2_data.length
          let mean1 := pdMean group1_data
          let mean2 := pdMean group2_data
          let std1 := pdStd lib group1_data
          let std2 := pdStd lib group2_data
          let pooled_std := lib.sqrt
            ((((n1 : ℚ) - 1) * std1 ^ 2 + ((n2 : ℚ) - 1) * std2 ^ 2)
              / ((n1 : ℚ) + (n2 : ℚ) - 2))
          let result : Result := [
            ("test_type", .str "Prueba t de dos muestras independientes"),
            ("variable", .str column),
            ("group_variable", .str group_column),
            ("groups", .list [cellVal g0, cellVal g1]),
            ("sample_sizes", .list [.num (n1 : ℚ), .num (n2 : ℚ)]),
            ("means", .list [.num mean1, .num mean2]),
            ("std_devs", .list [.num std1, .num std2]),
            ("t_statistic", .num tp.1),
            ("p_value", .num tp.2),
            ("alpha", .num alpha),
            ("is_significant", .bool (decide (tp.2 < alpha))),
            ("effect_size", .num ((mean1 - mean2) / pooled_std)),
            ("equal_variances", .bool equal_var),
            ("interpretation",
              .str (interpret_t_test_two_samples lib mean1 mean2 tp.2 alpha))]
          (result, hist ++ [result])

/-- `anova_one_way(data, dependent_var, independent_var, alpha=0.05)`.
The single string-content check models the `TypeError` that `f_oneway`
(strings inside a group) or the grand-mean computation (strings elsewhere in
the dependent column) raises on the success path. -/
def anova_one_way (lib : StatsLib) (df : DataFrame)
    (dependent_var independent_var : String) (alpha : ℚ)
    (hist : List Result) : Result × List Result :=
  match dfGet df independent_var with
  | Option.none => (errDict "Error en ANOVA: KeyError", hist)
  | some ivals =>
    let levels := pdUnique ivals
    match dfGet df dependent_var with
    | Option.none =>
      if levels.isEmpty then
        (errDict "Se necesitan al menos 2 grupos para ANOVA", hist)
      else
        (errDict "Error en ANOVA: KeyError", hist)
    | some dvals =>
      let named_groups := levels.filterMap (fun g =>
        let group_cells := dropna (selectWhere ivals dvals g)
        if group_cells.length > 0 then some (g, group_cells) else Option.none)
      if named_groups.length < 2 then
        (errDict "Se necesitan al menos 2 grupos para ANOVA", hist)
      else if dvals.any Cell.isStr then
        (errDict "Error en ANOVA: TypeError", hist)
      else
        let groups := named_groups.map (fun p => p.2.map Cell.toQ)
        let fp := lib.f_oneway groups
        let grand_mean := pdMean ((dropna dvals).map Cell.toQ)
        let group_stats := named_groups.map (fun p =>
          let g := p.2.map Cell.toQ
          PyVal.dict [
            ("group", cellVal p.1),
            ("n", .num (g.length : ℚ)),
            ("mean", .num (pdMean g)),
            ("std", .num (pdStd lib g)),
            ("min", .num (listMin g)),
            ("max", .num (listMax g))])
        let ss_between := listSum (groups.map (fun g =>
          (g.length : ℚ) * (pdMean g - grand_mean) ^ 2))
        let ss_total := listSum (groups.map (fun g =>
          listSum (g.map (fun x => (x - grand_mean) ^ 2))))
        let eta_squared := if ss_total > 0 then ss_between / ss_total else 0
        let result : Result := [
          ("test_type", .str "ANOVA de un factor"),
          ("dependent_variable", .str dependent_var),
          ("independent_variable", .str independent_var),
          ("groups", .list (named_groups.map (fun p => cellVal p.1))),
          ("group_statistics", .list group_stats),
          ("f_statistic", .num fp.1),
          ("p_value", .num fp.2),
          ("alpha", .num alpha),
          ("is_significant", .bool (decide (fp.2 < alpha))),
          ("eta_squared", .num eta_squared),
          ("interpretation",
            .str (interpret_anova lib fp.1 fp.2 alpha eta_squared))]
        (result, hist ++ [result])

/-- `pd.crosstab`: pairs with a missing member dropped, categories in order of
first appearance (pandas sorts its categories; no property below depends on
category order), counts per (row value, column value). -/
def crosstab (xs ys : List Cell) :
    List Cell × List Cell × List (List ℕ) :=
  let pairs := (xs.zip ys).filter (fun p => !p.1.isNone && !p.2.isNone)
  let rowcats := pdUnique (pairs.map (fun p => p.1))
  let colcats := pdUnique (pairs.map (fun p => p.2))
  let table := rowcats.map (fun r =>
    colcats.map (fun c =>
      (pairs.filter (fun p => pdEq p.1 r && pdEq p.2 c)).length))
  (rowcats, colcats, table)

/-- `chi_square_test(data, var1, var2, alpha=0.05)`.  An empty contingency
table (every row missing in one of the variables) makes `chi2_contingency`
raise, caught into the error dict. -/
def chi_square_test (lib : StatsLib) (df : DataFrame) (var1 var2 : String)
    (alpha : ℚ) (hist : List Result) : Result × List Result :=
  match dfGet df var1 with
  | Option.none => (errDict "Error en prueba de chi-cuadrado: KeyError", hist)
  | some xs =>
    match dfGet df var2 with
    | Option.none => (errDict "Error en prueba de chi-cuadrado: KeyError", hist)
    | some ys =>
      let ct := crosstab xs ys
      let rowcats := ct.1
      let colcats := ct.2.1
      let table := ct.2.2
      if rowcats.isEmpty ∨ colcats.isEmpty then
        (errDict "Error en prueba de chi-cuadrado: ValueError", hist)
      else
        let res := lib.chi2_contingency table
        let chi2 := res.1
        let p_value := res.2.1
        let dof := res.2.2.1
        let expected := res.2.2.2
        let n : ℚ := (listSum (table.map (fun row => ((row.sum : ℚ)))))
        let cramers_v := lib.sqrt
          (chi2 / (n * ((min rowcats.length colcats.length : ℚ) - 1)))
        let result : Result := [
          ("test_type", .str "Prueba de chi-cuadrado de independencia"),
          ("variable_1", .str var1),
          ("variable_2", .str var2),
          ("contingency_table",
            .list (table.map (fun row => PyVal.list (row.map (fun k => PyVal.num (k : ℚ)))))),
          ("expected_frequencies",
            .list (expected.map (fun row => PyVal.list (row.map PyVal.num)))),
          ("chi2_statistic", .num chi2),
          ("p_value", .num p_value),
          ("degrees_of_freedom", .num (dof : ℚ)),
          ("alpha", .num alpha),
          ("is_significant", .bool (decide (p_value < alpha))),
          ("cramers_v", .num cramers_v),
          ("interpretation",
            .str (interpret_chi_square lib chi2 p_value alpha cramers_v))]
        (result, hist ++ [result])

/-- `correlation_analysis(data, var1, var2, method='pearson', alpha=0.05)`. -/
def correlation_analysis (lib : StatsLib) (df : DataFrame)
    (var1 var2 method : String) (alpha : ℚ)
    (hist : List Result) : Result × List Result :=
  match dfGet df var1 with
  | Option.none => (errDict "Error en análisis de correlación: KeyError", hist)
  | some xs =>
    match dfGet df var2 with
    | Option.none => (errDict "Error en análisis de correlación: KeyError", hist)
    | some ys =>
      let valid := (xs.zip ys).filter (fun p => !p.1.isNone && !p.2.isNone)
      if valid.length < 3 then
        (errDict "Se necesitan al menos 3 observaciones válidas", hist)
      else if method = "pearson" ∨ method = "spearman" ∨ method = "kendall" then
        if valid.any (fun p => p.1.isStr || p.2.isStr) then
          (errDict "Error en análisis de correlación: TypeError", hist)
        else
          let a := valid.map (fun p => p.1.toQ)
          let b := valid.map (fun p => p.2.toQ)
          let rp :=
            if method = "pearson" then lib.pearsonr a b
            else if method = "spearman" then lib.spearmanr a b
            else lib.kendalltau a b
          let label :=
            if method = "pearson" then "Correlación de Pearson"
            else if method = "spearman" then "Correlación de Spearman"
            else "Correlación de Kendall"
          let strength := interpret_correlation_strength |rp.1|
          let result : Result := [
            ("test_type", .str label),
            ("variable_1", .str var1),
            ("variable_2", .str var2),
            ("method", .str method),
            ("sample_size", .num (valid.length : ℚ)),
            ("correlation_coefficient", .num rp.1),
            ("p_value", .num rp.2),
            ("alpha", .num alpha),
            ("is_significant", .bool (decide (rp.2 < alpha))),
            ("strength", .str strength),
            ("interpretation",
              .str (interpret_correlation lib rp.1 rp.2 alpha strength))]
          (result, hist ++ [result])
      else
        (errDict "Método no válido. Use: pearson, spearman, o kendall", hist)

/-- Keyed coefficient map `dict(zip(['const'] + independent_vars, vals))`. -/
def zipDict (names : List String) (vals : List ℚ) : List (String × PyVal) :=
  (names.zip vals).map (fun p => (p.1, PyVal.num p.2))

/-- `linear_regression(data, dependent_var, independent_vars, alpha=0.05)`.
The Python method also accepts a single string for `independent_vars` and
wraps it in a list; the embedding takes the list directly. -/
def linear_regression (lib : StatsLib) (df : DataFrame)
    (dependent_var : String) (independent_vars : List String) (alpha : ℚ)
    (hist : List Result) : Result × List Result :=
  match (dependent_var :: independent_vars).mapM (dfGet df) with
  | Option.none => (errDict "Error en regresión lineal: KeyError", hist)
  | some colLists =>
    let valid_rows := completeRows colLists
    if valid_rows.length < independent_vars.length + 2 then
      (errDict "Datos insuficientes para regresión", hist)
    else if valid_rows.any (fun r => r.any Cell.isStr) then
      (errDict "Error en regresión lineal: TypeError", hist)
    else
      let y := valid_rows.map (fun r => (r.headD Cell.none).toQ)
      let x := valid_rows.map (fun r => (r.drop 1).map Cell.toQ)
      let m := lib.ols y x
      let mse := pdMean ((y.zip m.ypred).map (fun p => (p.1 - p.2) ^ 2))
      let names := "const" :: independent_vars
      let result : Result := [
        ("test_type", .str "Regresión lineal"),
        ("dependent_variable", .str dependent_var),
        ("independent_variables", .list (independent_vars.map PyVal.str)),
        ("sample_size", .num (valid_rows.length : ℚ)),
        ("r_squared", .num m.rsquared),
        ("adj_r_squared", .num m.rsquared_adj),
        ("mse", .num mse),
        ("rmse", .num (lib.sqrt mse)),
        ("f_statistic", .num m.fvalue),
        ("f_p_value", .num m.f_pvalue),
        ("coefficients", .dict (zipDict names m.params)),
        ("p_values", .dict (zipDict names m.pvalues)),
        ("confidence_intervals", .dict ((names.zip m.conf_int).map
          (fun p => (p.1, PyVal.list [.num p.2.1, .num p.2.2])))),
        ("is_significant", .bool (decide (m.f_pvalue < alpha))),
        ("summary", .str m.summary),
        ("interpretation",
          .str (interpret_regression lib m.rsquared m.f_pvalue alpha))]
      (result, hist ++ [result])

/-- `kmeans_clustering(data, variables, n_clusters=3, random_state=42)`.
The `ValueError` branch models the exception `StandardScaler`/`KMeans`
raise on a string-valued or zero-width feature matrix. -/
def kmeans_clustering (lib : StatsLib) (df : DataFrame)
    (vars : List String) (n_clusters random_state : ℕ)
    (hist : List Result) : Result × List Result :=
  match vars.mapM (dfGet df) with
  | Option.none => (errDict "Error en clustering K-means: KeyError", hist)
  | some colLists =>
    let cluster_rows := completeRows colLists
    if cluster_rows.length < n_clusters then
      (errDict ("Se necesitan al menos " ++ toString n_clusters ++ " observaciones"),
        hist)
    else if vars.isEmpty ∨ cluster_rows.any (fun r => r.any Cell.isStr) then
      (errDict "Error en clustering K-means: ValueError", hist)
    else
      let qrows := cluster_rows.map (fun r => r.map Cell.toQ)
      let scaled := lib.fit_transform qrows
      let km := lib.kmeansFit n_clusters random_state scaled
      let centroids := lib.inverse_transform qrows km.centers
      let total := cluster_rows.length
      let cluster_stats := (List.range n_clusters).map (fun i =>
        let subset := ((km.labels.zip qrows).filter (fun p => p.1 = i)).map
          (fun p => p.2)
        let var_stats := (vars.enum).flatMap (fun v =>
          let colv := subset.map (fun r => r.getD v.1 0)
          [(v.2 ++ "_mean", PyVal.num (pdMean colv)),
           (v.2 ++ "_std", PyVal.num (pdStd lib colv))])
        PyVal.dict ([
          ("cluster", PyVal.num (i : ℚ)),
          ("size", PyVal.num (subset.length : ℚ)),
          ("percentage", PyVal.num ((subset.length : ℚ) / (total : ℚ) * 100))]
          ++ var_stats))
      let records := (qrows.zip km.labels).map (fun p =>
        PyVal.dict ((vars.enum.map (fun v => (v.2, PyVal.num (p.1.getD v.1 0))))
          ++ [("cluster", PyVal.num (p.2 : ℚ))]))
      let result : Result := [
        ("analysis_type", .str "K-means Clustering"),
        ("variables", .list (vars.map PyVal.str)),
        ("n_clusters", .num (n_clusters : ℚ)),
        ("sample_size", .num (total : ℚ)),
        ("cluster_labels", .list (km.labels.map (fun l => PyVal.num (l : ℚ)))),
        ("centroids", .list (centroids.map (fun c => PyVal.list (c.map PyVal.num)))),
        ("cluster_statistics", .list cluster_stats),
        ("inertia", .num km.inertia),
        ("data_with_clusters", .list records)]
      (result, hist ++ [result])

/-- `get_analysis_history()`: returns the history list as is. -/
def get_analysis_history (hist : List Result) : List Result := hist

/-- `clear_history()`: resets the history to the empty list. -/
def clear_history (_hist : List Result) : List Result := []

/-- One invocation of a `StatisticalAnalysis` operation, for the theorems
that quantify over every operation. -/
inductive Op where
  | oneSampleT (column : String) (test_value alpha : ℚ)
  | twoSampleT (column group_column : String) (alpha : ℚ) (equal_var : Bool)
  | anovaOneWay (dependent_var independent_var : String) (alpha : ℚ)
  | chiSquare (var1 var2 : String) (alpha : ℚ)
  | correlation (var1 var2 method : String) (alpha : ℚ)
  | regression (dependent_var : String) (independent_vars : List String) (alpha : ℚ)
  | kmeans (vars : List String) (n_clusters random_state : ℕ)

/-- Dispatch an `Op` to the corresponding method. -/
def runOp (lib : StatsLib) (df : DataFrame) (op : Op)
    (hist : List Result) : Result × List Result :=
  match op with
  | .oneSampleT c tv a => t_test_one_sample lib df c tv a hist
  | .twoSampleT c g a ev => t_test_two_samples lib df c g a ev hist
  | .anovaOneWay d i a => anova_one_way lib df d i a hist
  | .chiSquare v1 v2 a => chi_square_test lib df v1 v2 a hist
  | .correlation v1 v2 m a => correlation_analysis lib df v1 v2 m a hist
  | .regression d is a => linear_regression lib df d is a hist
  | .kmeans vs k seed => kmeans_clustering lib df vs k seed hist

/-- The caller-supplied significance level of an operation (`None` for the
clustering operation, which takes no `alpha`). -/
def Op.alphaOf : Op → Option ℚ
  | .oneSampleT _ _ a => some a
  | .twoSampleT _ _ a _ => some a
  | .anovaOneWay _ _ a => some a
  | .chiSquare _ _ a => some a
  | .correlation _ _ _ a => some a
  | .regression _ _ a => some a
  | .kmeans _ _ _ => Option.none

/-- The key under which an operation stores the p-value its significance
decision is gated on (`f_p_value` for the overall F-test of the regression,
`p_value` for every other test). -/
def Op.pKey : Op → String
  | .regression _ _ _ => "f_p_value"
  | _ => "p_value"

/-! ### The `DataValidator` (`data_validation.py`)

A finding dict `{'type', 'severity', 'message', 'suggestion'}` is modelled by
`Finding`: the `type` tag as a string, the severity as `Sev`, and the
message/suggestion pair by one `Msg` constructor per f-string template of the
source, carrying the interpolated data (column name, ratio, count, …; for
templates interpolating `str(e)` the exception text is the payload). -/

/-- The `severity` field of a finding. -/
inductive Sev where
  | error
  | warning
  | suggestion
  deriving DecidableEq

/-- One message/suggestion template of `data_validation.py`, with its
interpolated parameters. -/
inductive Msg where
  | emptyFile (file : String)
  | fewRows (file : String) (n : ℕ)
  | noColumns (file : String)
  | largeFile (n : ℕ)
  | numericAsText (column : String) (ratio : ℚ)
  | dateAsText (column : String)
  | typeCheckFailed (e : String)
  | missingWarn (column : String) (pct : ℚ)
  | missingCritical (column : String) (pct : ℚ)
  | missingTotal (total : ℕ)
  | missingCheckFailed (e : String)
  | dupWarn (count : ℕ) (pct : ℚ)
  | dupSugg (count : ℕ) (pct : ℚ)
  | dupCheckFailed (e : String)
  | outlierWarn (column : String) (count : ℕ) (pct : ℚ)
  | outlierSugg (column : String) (count : ℕ)
  | highCardinality (column : String) (n : ℕ)
  | lowCardinality (column : String) (n : ℕ)
  | colSpaces (column : String)
  | colSpecialChars (column : String)
  | colTooLong (column : String)
  | colCodeLike (column : String)
  deriving DecidableEq

/-- One finding appended to `error_messages` / `warnings` / `suggestions`. -/
structure Finding where
  ftype : String
  severity : Sev
  msg : Msg
  deriving DecidableEq

/-- The three finding lists a `DataValidator` instance accumulates
(`self.error_messages`, `self.warnings`, `self.suggestions`). -/
structure Found where
  errors : List Finding
  warnings : List Finding
  suggestions : List Finding
  deriving DecidableEq

/-- Concatenate the findings of a later check onto the accumulated state
(every check only appends to the three lists). -/
def Found.app (a b : Found) : Found :=
  ⟨a.errors ++ b.errors, a.warnings ++ b.warnings, a.suggestions ++ b.suggestions⟩

/-- The freshly reset state at the top of `validate_dataframe`. -/
def emptyFound : Found := ⟨[], [], []⟩

/-- `_validate_basic_structure`.  `df.empty` is true iff either axis has
length 0, so the dedicated `len(df.columns) < 1` error is unreachable but
kept.  The `basic_info` entry written to `validation_results` produces no
finding and is not modelled. -/
def structure_findings (df : DataFrame) (file : String) : Found :=
  if nRows df = 0 ∨ df.cols.isEmpty then
    ⟨[⟨"estructura", Sev.error, Msg.emptyFile file⟩], [], []⟩
  else
    let w1 : List Finding :=
      if nRows df < 2 then [⟨"estructura", Sev.warning, Msg.fewRows file (nRows df)⟩]
      else []
    if df.cols.length < 1 then
      ⟨[⟨"estructura", Sev.error, Msg.noColumns file⟩], w1, []⟩
    else
      ⟨[], w1 ++ (if nRows df > 100000 then
          [⟨"rendimiento", Sev.warning, Msg.largeFile (nRows df)⟩] else []), []⟩

/-- ASCII model of Python whitespace (`\s` of `re`, `str.strip`). -/
def isPyWs (c : Char) : Bool :=
  c = ' ' ∨ c = '\t' ∨ c = '\n' ∨ c = '\r' ∨ c = '\x0b' ∨ c = '\x0c'

/-- Lower-case an ASCII letter, for case-insensitive `float()` keywords. -/
def chLower (c : Char) : Char :=
  if 'A' ≤ c ∧ c ≤ 'Z' then Char.ofNat (c.toNat + 32) else c

/-- Case-insensitively strip a literal (given lower-case) prefix. -/
def ciKeyword : List Char → List Char → Option (List Char)
  | [], rest => some rest
  | _ :: _, [] => Option.none
  | p :: ps, c :: cs => if chLower c = p then ciKeyword ps cs else Option.none

/-- Consume a leading run of decimal digits, returning how many and the rest. -/
def splitDigits : List Char → ℕ × List Char
  | [] => (0, [])
  | c :: cs =>
    if c.isDigit then
      let r := splitDigits cs
      (r.1 + 1, r.2)
    else (0, c :: cs)

/-- Only trailing whitespace remains. -/
def endOK (l : List Char) : Bool := (l.dropWhile isPyWs).isEmpty

/-- Exponent tail after the `e`/`E`: optional sign, at least one digit. -/
def expTail (l : List Char) : Bool :=
  let l1 := match l with
    | c :: r => if c = '+' ∨ c = '-' then r else l
    | [] => l
  let d := splitDigits l1
  d.1 > 0 && endOK d.2

/-- After the mantissa: optional exponent part, then end of string. -/
def afterMantissa (l : List Char) : Bool :=
  match l with
  | 'e' :: rest => expTail rest
  | 'E' :: rest => expTail rest
  | _ => endOK l

/-- Model of Python's `float(s)` succeeding: optional whitespace and sign,
then `inf`/`infinity`/`nan` (case-insensitive) or a decimal mantissa with an
optional exponent.  (Underscore digit separators, legal since Python 3.6,
are not modelled; no validated data in this development contains them.) -/
def pyFloatOK (s : String) : Bool :=
  let l0 := s.data.dropWhile isPyWs
  let l1 := match l0 with
    | c :: r => if c = '+' ∨ c = '-' then r else l0
    | [] => l0
  match ciKeyword ['i', 'n', 'f', 'i', 'n', 'i', 't', 'y'] l1 with
  | some rest => endOK rest
  | Option.none =>
  match ciKeyword ['i', 'n', 'f'] l1 with
  | some rest => endOK rest
  | Option.none =>
  match ciKeyword ['n', 'a', 'n'] l1 with
  | some rest => endOK rest
  | Option.none =>
    let d1 := splitDigits l1
    match d1.2 with
    | '.' :: r2 =>
      let d2 := splitDigits r2
      if d1.1 + d2.1 = 0 then false else afterMantissa d2.2
    | _ => if d1.1 = 0 then false else afterMantissa d1.2

/-- `str(value).replace(',', '.').replace(' ', '')`: every comma becomes a
dot and every space character is removed. -/
def numTransform (s : String) : String :=
  String.mk ((s.data.map (fun c => if c = ',' then '.' else c)).filter
    (fun c => c ≠ ' '))

/-- `float(str(value).replace(',', '.').replace(' ', ''))` succeeds.  A
numeric cell in an object column stringifies to a plain decimal numeral, so
it always converts. -/
def cellConvertible : Cell → Bool
  | .num _ => true
  | .str s => pyFloatOK (numTransform s)
  | .none => false

/-- Match a fixed shape of character predicates as a prefix (the model of
`re.match` on the anchored-by-position date patterns). -/
def matchShape : List (Char → Bool) → List Char → Bool
  | [], _ => true
  | _ :: _, [] => false
  | p :: ps, c :: cs => p c && matchShape ps cs

/-- `_looks_like_date(str(value))`: one of the four patterns `YYYY-MM-DD`,
`DD/MM/YYYY`, `DD-MM-YYYY`, `YYYY/MM/DD` matches at the start of the string.
`str` of a numeric cell is a plain numeral and never matches. -/
def looksLikeDate : Cell → Bool
  | .str s =>
    let d := Char.isDigit
    let dash := fun c : Char => c = '-'
    let slash := fun c : Char => c = '/'
    matchShape [d, d, d, d, dash, d, d, dash, d, d] s.data ||
    matchShape [d, d, slash, d, d, slash, d, d, d, d] s.data ||
    matchShape [d, d, dash, d, d, dash, d, d, d, d] s.data ||
    matchShape [d, d, d, d, slash, d, d, slash, d, d] s.data
  | _ => false

/-- The problematic-column messages one column contributes inside
`_validate_data_types`, or the `ZeroDivisionError` text when the column is
text-typed with no non-missing value (the date-likeness ratio then divides
by zero before its `len > 0` guard is evaluated). -/
def typeColMsgs (c : Col) : Except String (List Msg) :=
  if c.dtype = Dtype.object then
    let non_null := dropna c.values
    let numericMsgs : List Msg :=
      if non_null.length > 0 then
        let samp := non_null.take 100
        let conv := (samp.filter cellConvertible).length
        if (conv : ℚ) / (samp.length : ℚ) > 8 / 10 then
          [Msg.numericAsText c.name ((conv : ℚ) / (samp.length : ℚ))]
        else []
      else []
    let samp10 := (dropna c.values).take 10
    if samp10.length = 0 then Except.error "division by zero"
    else
      let dcount := (samp10.filter looksLikeDate).length
      let dateMsgs : List Msg :=
        if (dcount : ℚ) / (samp10.length : ℚ) > 1 / 2 then [Msg.dateAsText c.name]
        else []
      Except.ok (numericMsgs ++ dateMsgs)
  else Except.ok []

/-- The `problematic_columns` loop of `_validate_data_types`: the first
exception aborts the whole check, discarding entries already collected
(the suggestions are only emitted after the loop). -/
def collectTypeMsgs : List Col → Except String (List Msg)
  | [] => Except.ok []
  | c :: rest =>
    match typeColMsgs c with
    | Except.error e => Except.error e
    | Except.ok ms =>
      match collectTypeMsgs rest with
      | Except.error e => Except.error e
      | Except.ok ms2 => Except.ok (ms ++ ms2)

/-- `_validate_data_types`: suggestions for the collected problematic
columns, or a single error-severity finding (tagged `'tipos_datos'`) when
the check raised internally. -/
def types_findings (df : DataFrame) : Found :=
  match collectTypeMsgs df.cols with
  | Except.ok msgs =>
    ⟨[], [], msgs.map (fun m => ⟨"tipo_datos", Sev.suggestion, m⟩)⟩
  | Except.error e =>
    ⟨[⟨"tipos_datos", Sev.error, Msg.typeCheckFailed e⟩], [], []⟩

/-- `_validate_missing_values`.  With at least one column and zero rows the
percentage computation divides by zero on the first column, before any
finding is appended. -/
def missing_findings (df : DataFrame) : Found :=
  if df.cols.length > 0 ∧ nRows df = 0 then
    ⟨[⟨"valores_faltantes", Sev.error, Msg.missingCheckFailed "division by zero"⟩], [], []⟩
  else
    let n := nRows df
    let infos : List (String × ℕ) :=
      df.cols.map (fun c => (c.name, (c.values.filter Cell.isNone).length))
    let warns := infos.flatMap (fun p =>
      let pct : ℚ := (p.2 : ℚ) / (n : ℚ) * 100
      if pct > 50 then []
      else if pct > 20 then [(⟨"valores_faltantes", Sev.warning, Msg.missingWarn p.1 pct⟩ : Finding)]
      else [])
    let errs := infos.flatMap (fun p =>
      let pct : ℚ := (p.2 : ℚ) / (n : ℚ) * 100
      if pct > 50 then [(⟨"valores_faltantes", Sev.error, Msg.missingCritical p.1 pct⟩ : Finding)]
      else [])
    let total := (infos.map (fun p => p.2)).sum
    let suggs :=
      if total > 0 then [(⟨"valores_faltantes", Sev.suggestion, Msg.missingTotal total⟩ : Finding)]
      else []
    ⟨errs, warns, suggs⟩

/-- Count of rows equal to an earlier row (`df.duplicated().sum()`; pandas
treats `NaN` as equal to `NaN` when deciding duplicates, matching the
structural equality of `Cell`). -/
def dupRowCount : List (List Cell) → List (List Cell) → ℕ
  | _, [] => 0
  | seen, r :: rest => (if r ∈ seen then 1 else 0) + dupRowCount (r :: seen) rest

/-- `_validate_duplicates`.  With zero rows the percentage divides by zero. -/
def duplicates_findings (df : DataFrame) : Found :=
  if nRows df = 0 then
    ⟨[⟨"duplicados", Sev.error, Msg.dupCheckFailed "division by zero"⟩], [], []⟩
  else
    let rows := rowsOf (df.cols.map Col.values)
    let dc := dupRowCount [] rows
    let pct : ℚ := (dc : ℚ) / (nRows df : ℚ) * 100
    if dc > 0 then
      if pct > 10 then ⟨[], [⟨"duplicados", Sev.warning, Msg.dupWarn dc pct⟩], []⟩
      else ⟨[], [], [⟨"duplicados", Sev.suggestion, Msg.dupSugg dc pct⟩]⟩
    else ⟨[], [], []⟩

/-- `np.number` dtypes as selected by `select_dtypes`. -/
def numericDtype : Dtype → Bool
  | .int64 => true
  | .float64 => true
  | _ => false

/-- `_validate_outliers`: IQR rule per numeric column with at least 4
non-missing values. -/
def outliers_findings (df : DataFrame) : Found :=
  let per := (df.cols.filter (fun c => numericDtype c.dtype)).flatMap (fun c =>
    let col_data := (dropna c.values).map Cell.toQ
    if col_data.length < 4 then []
    else
      let q1 := pdQuantile col_data (1 / 4)
      let q3 := pdQuantile col_data (3 / 4)
      let iqr := q3 - q1
      let lower_bound := q1 - 3 / 2 * iqr
      let upper_bound := q3 + 3 / 2 * iqr
      let oc := (col_data.filter (fun x => x < lower_bound ∨ x > upper_bound)).length
      let pct : ℚ := (oc : ℚ) / (col_data.length : ℚ) * 100
      if pct > 5 then [(Sev.warning, Msg.outlierWarn c.name oc pct)]
      else if oc > 0 then [(Sev.suggestion, Msg.outlierSugg c.name oc)]
      else [])
  ⟨[],
    (per.filter (fun p => p.1 = Sev.warning)).map (fun p => ⟨"outliers", p.1, p.2⟩),
    (per.filter (fun p => p.1 = Sev.suggestion)).map (fun p => ⟨"outliers", p.1, p.2⟩)⟩

/-- `_validate_data_consistency`: cardinality heuristics (both are
suggestions; `nunique` counts distinct non-missing values). -/
def consistency_findings (df : DataFrame) : Found :=
  let suggs := df.cols.flatMap (fun c =>
    let col_data := dropna c.values
    if col_data.length = 0 then []
    else
      let nuniq := (pdUnique col_data).length
      let uratio : ℚ := (nuniq : ℚ) / (col_data.length : ℚ)
      if c.dtype = Dtype.object ∧ uratio > 8 / 10 ∧ nuniq > 50 then
        [(⟨"consistencia", Sev.suggestion, Msg.highCardinality c.name nuniq⟩ : Finding)]
      else if (c.dtype = Dtype.int64 ∨ c.dtype = Dtype.float64) ∧ nuniq < 10
          ∧ col_data.length > 100 then
        [(⟨"consistencia", Sev.suggestion, Msg.lowCardinality c.name nuniq⟩ : Finding)]
      else [])
  ⟨[], [], suggs⟩

/-- ASCII model of a `\w` word character of Python's `re`. -/
def wordChar (c : Char) : Bool := c.isAlphanum || c = '_'

/-- `re.match(r'^[A-Z]{1,3}\d+$', name)`: one to three upper-case letters
followed only by at least one digit. -/
def codeLike (l : List Char) : Bool :=
  let ups := l.takeWhile (fun c => 'A' ≤ c ∧ c ≤ 'Z')
  let rest := l.drop ups.length
  1 ≤ ups.length && ups.length ≤ 3 && !rest.isEmpty && rest.all Char.isDigit

/-- `str.strip()` (ASCII whitespace model). -/
def pyStripStr (s : String) : String :=
  String.mk ((s.data.dropWhile isPyWs).reverse.dropWhile isPyWs).reverse

/-- `_validate_column_names`: per-name heuristics.  `too_short` is detected
by the source but the emission loop has no branch for it, so it yields no
finding; the other four issues each yield one suggestion, in source order. -/
def colname_findings (df : DataFrame) : Found :=
  let suggs := df.cols.flatMap (fun c =>
    let name := c.name
    let l1 : List Msg := if name ≠ pyStripStr name then [Msg.colSpaces name] else []
    let l2 : List Msg :=
      if name.data.any (fun ch => !(wordChar ch ∨ isPyWs ch ∨ ch = '-' ∨ ch = '_')) then
        [Msg.colSpecialChars name]
      else []
    let l3 : List Msg := if name.length > 50 then [Msg.colTooLong name] else []
    let l4 : List Msg := if codeLike name.data then [Msg.colCodeLike name] else []
    (l1 ++ l2 ++ l3 ++ l4).map
      (fun m => (⟨"nombres_columnas", Sev.suggestion, m⟩ : Finding)))
  ⟨[], [], suggs⟩

/-- The validator state after the seven checks of `validate_dataframe` have
run, starting from the freshly reset lists. -/
def validator_state (df : DataFrame) (file : String) : Found :=
  ((((((structure_findings df file).app
    (types_findings df)).app
    (missing_findings df)).app
    (duplicates_findings df)).app
    (outliers_findings df)).app
    (consistency_findings df)).app
    (colname_findings df)

/-- The dict returned by `validate_dataframe` (the `validation_details` map
feeds no finding and is not modelled). -/
structure Report where
  is_valid : Bool
  errors : List Finding
  warnings : List Finding
  suggestions : List Finding

/-- `validate_dataframe(df, file_name)`. -/
def validate_dataframe (df : DataFrame) (file : String) : Report :=
  let st := validator_state df file
  ⟨decide (st.errors.length = 0), st.errors, st.warnings, st.suggestions⟩

/-- `_calculate_validation_score`: flat per-finding penalties, clamped. -/
def calculate_validation_score (st : Found) : ℤ :=
  max 0 (min 100 (100 - 20 * (st.errors.length : ℤ)
    - 5 * (st.warnings.length : ℤ) - (st.suggestions.length : ℤ)))

/-- The dict returned by `get_validation_summary`. -/
structure Summary where
  total_errors : ℕ
  total_warnings : ℕ
  total_suggestions : ℕ
  is_ready_for_analysis : Bool
  validation_score : ℤ

/-- `get_validation_summary()`, reading the accumulated finding lists. -/
def get_validation_summary (st : Found) : Summary :=
  ⟨st.errors.length, st.warnings.length, st.suggestions.length,
    decide (st.errors.length = 0), calculate_validation_score st⟩

/-! ### Derived predicates used by the theorems -/

/-- The result dict carries the given key. -/
def hasKey (r : Result) (k : String) : Bool := (lookup r k).isSome

/-- The five fields the specification requires of every test result. -/
def fiveKeys (r : Result) : Bool :=
  hasKey r "test_type" && hasKey r "p_value" && hasKey r "alpha" &&
    hasKey r "is_significant" && hasKey r "interpretation"

/-- Which of the five common fields each operation's success dict actually
carries: the five hypothesis tests carry all of them; the regression result
stores its overall F-test p-value under `f_p_value` and has no `p_value` or
`alpha` key; the clustering result is keyed by `analysis_type` and carries
none of the five. -/
def fieldContract : Op → Result → Bool
  | Op.regression _ _ _, r =>
    hasKey r "test_type" && hasKey r "f_p_value" && hasKey r "is_significant" &&
      hasKey r "interpretation" && !hasKey r "p_value" && !hasKey r "alpha"
  | Op.kmeans _ _ _, r =>
    hasKey r "analysis_type" &&
      !(hasKey r "test_type" || hasKey r "p_value" || hasKey r "alpha" ||
        hasKey r "is_significant" || hasKey r "interpretation")
  | _, r => fiveKeys r

/-- The significance decision of a result is gated exactly on the stored
p-value being strictly below the caller's alpha. -/
def sigOK (op : Op) (r : Result) : Prop :=
  ∀ a, op.alphaOf = some a →
    ∃ p, lookup r op.pKey = some (PyVal.num p) ∧
      lookup r "is_significant" = some (PyVal.bool (decide (p < a)))

/-- The convertible ratio computed by the numeric-as-text heuristic:
parsed values over sampled values, over a sample of up to 100 non-missing
values. -/
def convRatio (c : Col) : ℚ :=
  let samp := (dropna c.values).take 100
  ((samp.filter cellConvertible).length : ℚ) / (samp.length : ℚ)

/-! ### Concrete instances used by witnesses and counterexamples -/

/-- A concrete statistical library (all outputs constant), for evaluating
the operations on concrete tables. -/
def lib0 : StatsLib where
  sqrt := fun _ => 0
  ttest_1samp := fun _ _ => (0, 1 / 2)
  t_interval := fun _ _ _ _ => (0, 0)
  ttest_ind := fun _ _ _ => (0, 1 / 2)
  f_oneway := fun _ => (0, 1 / 2)
  chi2_contingency := fun _ => (0, 1 / 2, 1, [])
  pearsonr := fun _ _ => (0, 1 / 2)
  spearmanr := fun _ _ => (0, 1 / 2)
  kendalltau := fun _ _ => (0, 1 / 2)
  ols := fun _ _ => ⟨0, 0, 0, 1 / 2, [], [], [], [], ""⟩
  fit_transform := fun x => x
  inverse_transform := fun _ c => c
  kmeansFit := fun _ _ _ => ⟨[], [], 0⟩
  fmt := fun _ _ => ""
  pyStr := fun _ => ""

/-- One numeric column with a single observation (a sample of size 1, below
the minimum any t-test needs). -/
def dfSingle : DataFrame := ⟨[⟨"x", Dtype.float64, [Cell.num 5]⟩]⟩

/-- Two numeric columns with only two (complete) rows — fewer than the three
valid pairs the correlation requires. -/
def dfCorr2 : DataFrame :=
  ⟨[⟨"x", Dtype.float64, [Cell.num 1, Cell.num 2]⟩,
    ⟨"y", Dtype.float64, [Cell.num 1, Cell.num 2]⟩]⟩

/-- Two numeric columns with three complete rows. -/
def dfCorr3 : DataFrame :=
  ⟨[⟨"x", Dtype.float64, [Cell.num 1, Cell.num 2, Cell.num 3]⟩,
    ⟨"y", Dtype.float64, [Cell.num 2, Cell.num 4, Cell.num 5]⟩]⟩

/-- One numeric column with three observations, enough for `k = 3` clusters. -/
def dfK : DataFrame := ⟨[⟨"x", Dtype.float64, [Cell.num 1, Cell.num 2, Cell.num 3]⟩]⟩

/-- A grouping column with exactly two distinct values plus a measured
numeric column. -/
def dfTwoG : DataFrame :=
  ⟨[⟨"g", Dtype.object, [Cell.str "a", Cell.str "b", Cell.str "a"]⟩,
    ⟨"y", Dtype.float64, [Cell.num 1, Cell.num 2, Cell.num 3]⟩]⟩

/-- A grouping column with two distinct non-missing values and one missing
value. -/
def dfNanG : DataFrame :=
  ⟨[⟨"g", Dtype.object, [Cell.num 1, Cell.num 2, Cell.none]⟩,
    ⟨"y", Dtype.float64, [Cell.num 10, Cell.num 20, Cell.num 30]⟩]⟩

/-- The §8 scenario column: non-missing values `"12,5"`, `"7,3"`, `"9,0"`
(European decimal commas), stored as text. -/
def colComma : Col :=
  ⟨"medida", Dtype.object, [Cell.str "12,5", Cell.str "7,3", Cell.str "9,0"]⟩

/-- A one-column table holding the decimal-comma scenario column. -/
def dfComma : DataFrame := ⟨[colComma]⟩

/-- A text column in which exactly 4 of 5 values (80%, not more) parse as
numbers. -/
def colEighty : Col :=
  ⟨"c80", Dtype.object,
    [Cell.str "1,5", Cell.str "2,5", Cell.str "3,5", Cell.str "4,5", Cell.str "abc"]⟩

/-- A one-column table holding the exactly-80%-convertible column. -/
def dfEighty : DataFrame := ⟨[colEighty]⟩

/-- A table with one text column whose values are all missing. -/
def dfAllMissing : DataFrame := ⟨[⟨"vacia", Dtype.object, [Cell.none]⟩]⟩

/-! ### Helper lemmas -/

theorem isError_errDict (s : String) : isError (errDict s) = true := rfl

/-- Every operation either returns an error dict and leaves the history
unchanged, or returns a non-error dict, appends exactly it to the history,
and that dict satisfies the field and significance contracts. -/
theorem runOp_cases (lib : StatsLib) (df : DataFrame) (op : Op) (hist : List Result) :
    (∃ s, runOp lib df op hist = (errDict s, hist)) ∨
    (isError (runOp lib df op hist).1 = false ∧
     (runOp lib df op hist).2 = hist ++ [(runOp lib df op hist).1] ∧
     sigOK op (runOp lib df op hist).1 ∧
     fieldContract op (runOp lib df op hist).1 = true) := by
  cases op with
  | oneSampleT c tv a =>
    simp only [runOp]
    unfold t_test_one_sample
    repeat' (first | split | (dsimp only; split))
    all_goals first
      | exact Or.inl ⟨_, rfl⟩
      | exact Or.inr ⟨rfl, rfl, fun a ha => by cases ha <;> exact ⟨_, rfl, rfl⟩, rfl⟩
  | twoSampleT c g a ev =>
    simp only [runOp]
    unfold t_test_two_samples
    repeat' (first | split | (dsimp only; split))
    all_goals first
      | exact Or.inl ⟨_, rfl⟩
      | exact Or.inr ⟨rfl, rfl, fun a ha => by cases ha <;> exact ⟨_, rfl, rfl⟩, rfl⟩
  | anovaOneWay d i a =>
    simp only [runOp]
    unfold anova_one_way
    repeat' (first | split | (dsimp only; split))
    all_goals first
      | exact Or.inl ⟨_, rfl⟩
      | exact Or.inr ⟨rfl, rfl, fun a ha => by cases ha <;> exact ⟨_, rfl, rfl⟩, rfl⟩
  | chiSquare v1 v2 a =>
    simp only [runOp]
    unfold chi_square_test
    repeat' (first | split | (dsimp only; split))
    all_goals first
      | exact Or.inl ⟨_, rfl⟩
      | exact Or.inr ⟨rfl, rfl, fun a ha => by cases ha <;> exact ⟨_, rfl, rfl⟩, rfl⟩
  | correlation v1 v2 m a =>
    simp only [runOp]
    unfold correlation_analysis
    repeat' (first | split | (dsimp only; split))
    all_goals first
      | exact Or.inl ⟨_, rfl⟩
      | exact Or.inr ⟨rfl, rfl, fun a ha => by cases ha <;> exact ⟨_, rfl, rfl⟩, rfl⟩
  | regression d is a =>
    simp only [runOp]
    unfold linear_regression
    repeat' (first | split | (dsimp only; split))
    all_goals first
      | exact Or.inl ⟨_, rfl⟩
      | exact Or.inr ⟨rfl, rfl, fun a ha => by cases ha <;> exact ⟨_, rfl, rfl⟩, rfl⟩
  | kmeans vs k seed =>
    simp only [runOp]
    unfold kmeans_clustering
    repeat' (first | split | (dsimp only; split))
    all_goals first
      | exact Or.inl ⟨_, rfl⟩
      | exact Or.inr ⟨rfl, rfl, fun a ha => by cases ha <;> exact ⟨_, rfl, rfl⟩, rfl⟩

/-! ### C1 — significance gate -/

/-- C1: for every test operation (one-sample t, two-sample t, one-way ANOVA,
chi-square, correlation, linear regression — every operation that takes an
alpha) and every alpha in (0, 1), a non-error result stores under
`is_significant` exactly the Boolean `p_value < alpha`, strictly, where the
p-value read is the one under `p_value` (`f_p_value`, the overall F-test,
for the linear regression). -/
theorem significance_gate_spec (lib : StatsLib) (df : DataFrame) (op : Op)
    (hist : List Result) (a : ℚ) (ha : op.alphaOf = some a)
    (h0 : 0 < a) (h1 : a < 1)
    (hok : isError (runOp lib df op hist).1 = false) :
    ∃ p, lookup (runOp lib df op hist).1 op.pKey = some (PyVal.num p) ∧
      lookup (runOp lib df op hist).1 "is_significant" =
        some (PyVal.bool (decide (p < a))) := by
  rcases runOp_cases lib df op hist with ⟨s, hs⟩ | ⟨_, _, hsig, _⟩
  · rw [hs] at hok
    exact absurd hok (by simp [isError_errDict])
  · exact hsig a ha

/-- Witness for C1: a concrete one-sample t-test call on a one-value numeric
column succeeds, and its stored significance decision is `p_value < alpha`. -/
theorem significance_gate_witness :
    ∃ p, lookup (runOp lib0 dfSingle (Op.oneSampleT "x" 0 (1 / 20)) []).1
        (Op.oneSampleT "x" 0 (1 / 20)).pKey = some (PyVal.num p) ∧
      lookup (runOp lib0 dfSingle (Op.oneSampleT "x" 0 (1 / 20)) []).1
        "is_significant" = some (PyVal.bool (decide (p < 1 / 20))) :=
  significance_gate_spec lib0 dfSingle (Op.oneSampleT "x" 0 (1 / 20)) [] (1 / 20)
    rfl (by norm_num) (by norm_num) rfl

/-! ### C4 — common result fields -/

/-- C4 (amended): every non-error result of the five hypothesis tests
(one-sample t, two-sample t, one-way ANOVA, chi-square, correlation)
contains the fields `test_type`, `p_value`, `alpha`, `is_significant` and
`interpretation`; the linear-regression result contains `test_type`,
`f_p_value`, `is_significant` and `interpretation` but no `p_value` or
`alpha` key; and the kmeans-clustering result (keyed `analysis_type`)
contains none of the five. -/
theorem result_fields_spec (lib : StatsLib) (df : DataFrame) (op : Op)
    (hist : List Result)
    (hok : isError (runOp lib df op hist).1 = false) :
    fieldContract op (runOp lib df op hist).1 = true := by
  rcases runOp_cases lib df op hist with ⟨s, hs⟩ | ⟨_, _, _, hf⟩
  · rw [hs] at hok
    exact absurd hok (by simp [isError_errDict])
  · exact hf

/-- Witness for C4: a concrete one-sample t-test result carries all five
common fields. -/
theorem result_fields_witness :
    fieldContract (Op.oneSampleT "x" 0 (1 / 20))
      (runOp lib0 dfSingle (Op.oneSampleT "x" 0 (1 / 20)) []).1 = true :=
  result_fields_spec lib0 dfSingle (Op.oneSampleT "x" 0 (1 / 20)) [] rfl

/-- Counterexample for C4 as stated: a concrete successful kmeans-clustering
call — a member of the spec's `TestResult` union — returns a result that has
none of the fields `test_type`, `p_value`, `alpha`, `is_significant`,
`interpretation`. -/
theorem kmeans_fields_counterexample :
    isError (runOp lib0 dfK (Op.kmeans ["x"] 3 42) []).1 = false ∧
    lookup (runOp lib0 dfK (Op.kmeans ["x"] 3 42) []).1 "test_type" = Option.none ∧
    lookup (runOp lib0 dfK (Op.kmeans ["x"] 3 42) []).1 "p_value" = Option.none ∧
    lookup (runOp lib0 dfK (Op.kmeans ["x"] 3 42) []).1 "alpha" = Option.none ∧
    lookup (runOp lib0 dfK (Op.kmeans ["x"] 3 42) []).1 "is_significant" = Option.none ∧
    lookup (runOp lib0 dfK (Op.kmeans ["x"] 3 42) []).1 "interpretation" = Option.none :=
  ⟨rfl, rfl, rfl, rfl, rfl, rfl⟩

/-! ### C7 — history discipline -/

/-- C7: within one `StatisticalAnalysis` instance, every call that returns a
non-error result appends exactly that result to the end of the history
(`get_analysis_history` returns the list in insertion order), every call
that returns an error object leaves the history unchanged, and
`clear_history` empties it. -/
theorem history_spec (lib : StatsLib) (df : DataFrame) (op : Op)
    (hist : List Result) :
    (runOp lib df op hist).2 =
      (if isError (runOp lib df op hist).1 = true then hist
        else hist ++ [(runOp lib df op hist).1]) ∧
    get_analysis_history (runOp lib df op hist).2 = (runOp lib df op hist).2 ∧
    get_analysis_history (clear_history hist) = [] := by
  refine ⟨?_, rfl, rfl⟩
  rcases runOp_cases lib df op hist with ⟨s, hs⟩ | ⟨h1, h2, _, _⟩
  · rw [hs]
    simp [isError_errDict]
  · rw [if_neg (by simp [h1]), h2]

/-! ### C2 — validation score and readiness -/

/-- C2: for every state of accumulated findings, `get_validation_summary`
returns a validation score equal to `100 − 20·errors − 5·warnings −
1·suggestions` clamped into `[0, 100]`, and `is_ready_for_analysis` is true
iff the error count is zero; the score is a function of the three finding
counts alone. -/
theorem validation_summary_spec (st : Found) :
    (get_validation_summary st).validation_score =
      max 0 (min 100 (100 - 20 * (st.errors.length : ℤ)
        - 5 * (st.warnings.length : ℤ) - (st.suggestions.length : ℤ))) ∧
    0 ≤ (get_validation_summary st).validation_score ∧
    (get_validation_summary st).validation_score ≤ 100 ∧
    ((get_validation_summary st).is_ready_for_analysis = true ↔
      st.errors.length = 0) ∧
    (get_validation_summary st).total_errors = st.errors.length ∧
    (get_validation_summary st).total_warnings = st.warnings.length ∧
    (get_validation_summary st).total_suggestions = st.suggestions.length := by
  refine ⟨rfl, le_max_left _ _, ?_, ?_, rfl, rfl, rfl⟩
  · exact max_le (by norm_num) (min_le_left _ _)
  · simp [get_validation_summary]

/-! ### Lemmas about `pdUnique` and column selection -/

theorem mem_pdUnique : ∀ (l : List Cell) (x : Cell), x ∈ pdUnique l ↔ x ∈ l := by
  intro l
  induction l using pdUnique.induct with
  | case1 => intro x; simp [pdUnique]
  | case2 a t ih =>
    intro x
    rw [pdUnique]
    by_cases hxa : x = a
    · subst hxa; simp
    · simp only [List.mem_cons, ih]
      constructor
      · rintro (rfl | hx)
        · exact Or.inl rfl
        · exact Or.inr (List.mem_of_mem_filter hx)
      · rintro (rfl | hx)
        · exact Or.inl rfl
        · exact Or.inr (List.mem_filter.mpr ⟨hx, by simp [hxa]⟩)

theorem pdUnique_nodup : ∀ (l : List Cell), (pdUnique l).Nodup := by
  intro l
  induction l using pdUnique.induct with
  | case1 => simp [pdUnique]
  | case2 a t ih =>
    rw [pdUnique]
    refine List.nodup_cons.mpr ⟨?_, ih⟩
    intro hmem
    have := List.mem_filter.mp ((mem_pdUnique _ _).mp hmem)
    simp at this

theorem three_le_length {l : List Cell} {x y z : Cell}
    (hx : x ∈ l) (hy : y ∈ l) (hz : z ∈ l)
    (hxy : x ≠ y) (hxz : x ≠ z) (hyz : y ≠ z) :
    3 ≤ l.length := by
  have hsub : ({x, y, z} : Finset Cell) ⊆ l.toFinset := by
    intro w hw
    simp only [Finset.mem_insert, Finset.mem_singleton] at hw
    rcases hw with rfl | rfl | rfl <;> simpa [List.mem_toFinset]
  have hcard : ({x, y, z} : Finset Cell).card = 3 := by
    rw [Finset.card_insert_of_not_mem (by simp [hxy, hxz]),
      Finset.card_insert_of_not_mem (by simp [hyz]), Finset.card_singleton]
  calc 3 = ({x, y, z} : Finset Cell).card := hcard.symm
    _ ≤ l.toFinset.card := Finset.card_le_card hsub
    _ ≤ l.length := l.toFinset_card_le

theorem mem_selectWhere {gvals cvals : List Cell} {g x : Cell}
    (h : x ∈ selectWhere gvals cvals g) : x ∈ cvals := by
  unfold selectWhere at h
  rcases List.mem_filterMap.mp h with ⟨p, hp, he⟩
  by_cases hb : pdEq p.1 g
  · rw [if_pos hb] at he
    cases he
    exact (List.of_mem_zip (by simpa using hp)).2
  · rw [if_neg hb] at he
    cases he

theorem dropna_subset {l : List Cell} {x : Cell} (h : x ∈ dropna l) : x ∈ l :=
  List.mem_of_mem_filter h

theorem any_isStr_false_of_all {l cvals : List Cell}
    (hsub : ∀ x ∈ l, x ∈ cvals) (hnum : cvals.all (fun x => !x.isStr) = true) :
    l.any Cell.isStr = false := by
  rw [List.any_eq_false]
  intro x hx
  have := List.all_eq_true.mp hnum x (hsub x hx)
  simpa using this

/-! ### C5 — two-sample t-test group-count gate -/

/-- C5: for every table in which the grouping column and the measured
(numeric) column exist, the two-sample independent t-test returns an error
object exactly when the number of distinct values of the grouping column (as
enumerated by `unique()`, which counts a missing value as one of the
distinct values) differs from 2; with exactly 2 distinct values it proceeds
and returns a non-error result, never raising. -/
theorem two_sample_group_count_spec (lib : StatsLib) (df : DataFrame)
    (column group_column : String) (a : ℚ) (ev : Bool) (hist : List Result)
    (gvals cvals : List Cell)
    (hg : dfGet df group_column = some gvals)
    (hc : dfGet df column = some cvals)
    (hnum : cvals.all (fun x => !x.isStr) = true) :
    isError (t_test_two_samples lib df column group_column a ev hist).1 =
      decide ((pdUnique gvals).length ≠ 2) := by
  unfold t_test_two_samples
  rw [hg]
  dsimp only
  by_cases hlen : (pdUnique gvals).length = 2
  · rw [if_neg (by simp [hlen])]
    rw [hc]
    dsimp only
    have h1 : (dropna (selectWhere gvals cvals
        ((pdUnique gvals).getD 0 Cell.none))).any Cell.isStr = false :=
      any_isStr_false_of_all (fun x hx => mem_selectWhere (dropna_subset hx)) hnum
    have h2 : (dropna (selectWhere gvals cvals
        ((pdUnique gvals).getD 1 Cell.none))).any Cell.isStr = false :=
      any_isStr_false_of_all (fun x hx => mem_selectWhere (dropna_subset hx)) hnum
    rw [if_neg (by rw [h1, h2]; simp)]
    simp only [hlen]
    rfl
  · rw [if_pos (by simp [hlen])]
    simp [hlen, isError_errDict]

/-- Witness for C5: on a concrete table whose grouping column has exactly
the two distinct values `"a"`, `"b"`, the call's error status equals the
group-count test (and is in fact non-error). -/
theorem two_sample_group_count_witness :
    isError (t_test_two_samples lib0 dfTwoG "y" "g" (1 / 20) true []).1 =
      decide ((pdUnique [Cell.str "a", Cell.str "b", Cell.str "a"]).length ≠ 2) :=
  two_sample_group_count_spec lib0 dfTwoG "y" "g" (1 / 20) true []
    [Cell.str "a", Cell.str "b", Cell.str "a"]
    [Cell.num 1, Cell.num 2, Cell.num 3] rfl rfl rfl

/-! ### C9 — a missing value counts as a group -/

/-- C9: in `t_test_two_samples` a missing value in the grouping column
counts as one distinct group: for every table whose grouping column has
exactly two distinct non-missing values plus at least one missing value,
the call returns the `'exactly 2 groups'` error (and leaves the history
unchanged) instead of testing the two real groups. -/
theorem nan_counts_as_group_spec (lib : StatsLib) (df : DataFrame)
    (column group_column : String) (a : ℚ) (ev : Bool) (hist : List Result)
    (gvals : List Cell) (x y : Cell)
    (hg : dfGet df group_column = some gvals)
    (hx : x ∈ gvals) (hy : y ∈ gvals) (hn : Cell.none ∈ gvals)
    (hxy : x ≠ y) (hxn : x ≠ Cell.none) (hyn : y ≠ Cell.none)
    (hall : ∀ z ∈ gvals, z = x ∨ z = y ∨ z = Cell.none) :
    t_test_two_samples lib df column group_column a ev hist =
      (errDict "La variable de agrupación debe tener exactamente 2 grupos", hist) := by
  have h3 : 3 ≤ (pdUnique gvals).length :=
    three_le_length ((mem_pdUnique _ _).mpr hx) ((mem_pdUnique _ _).mpr hy)
      ((mem_pdUnique _ _).mpr hn) hxy hxn hyn
  unfold t_test_two_samples
  rw [hg]
  dsimp only
  rw [if_pos (by omega)]

/-- Witness for C9: a concrete grouping column `[1, 2, NaN]` (two real
groups plus a missing value) yields the exactly-2-groups error. -/
theorem nan_counts_as_group_witness :
    t_test_two_samples lib0 dfNanG "y" "g" (1 / 20) true [] =
      (errDict "La variable de agrupación debe tener exactamente 2 grupos", []) :=
  nan_counts_as_group_spec lib0 dfNanG "y" "g" (1 / 20) true []
    [Cell.num 1, Cell.num 2, Cell.none] (Cell.num 1) (Cell.num 2)
    rfl (by simp) (by simp) (by simp)
    (by simp) (by simp) (by simp)
    (by intro z hz; simpa using hz)

/-! ### C3 — minimum sample sizes -/

/-- C3 (amended): the correlation returns an error whenever fewer than 3
valid pairs remain after dropping rows missing either variable; but the
one-sample t-test performs no minimum-sample-size check at all — on any
numeric column (of any length, including a singleton or empty sample) it
returns a non-error result rather than failing. -/
theorem min_sample_size_spec (lib : StatsLib) (df : DataFrame)
    (v1 v2 m : String) (a : ℚ) (hist : List Result) (xs ys : List Cell)
    (c : String) (vals : List Cell) (tv a2 : ℚ)
    (h1 : dfGet df v1 = some xs) (h2 : dfGet df v2 = some ys)
    (hlt : ((xs.zip ys).filter (fun p => !p.1.isNone && !p.2.isNone)).length < 3)
    (hc : dfGet df c = some vals)
    (hnum : vals.all (fun x => !x.isStr) = true) :
    (correlation_analysis lib df v1 v2 m a hist).1 =
      errDict "Se necesitan al menos 3 observaciones válidas" ∧
    isError (t_test_one_sample lib df c tv a2 hist).1 = false := by
  constructor
  · unfold correlation_analysis
    rw [h1]
    dsimp only
    rw [h2]
    dsimp only
    rw [if_pos hlt]
  · unfold t_test_one_sample
    rw [hc]
    dsimp only
    have hstr : (dropna vals).any Cell.isStr = false :=
      any_isStr_false_of_all (fun x hx => dropna_subset hx) hnum
    rw [if_neg (by rw [hstr]; simp)]
    rfl

/-- Witness for C3 (amended): two numeric columns with only two complete
rows make the correlation fail with the insufficient-data error, while the
one-sample t-test on one of those columns succeeds. -/
theorem min_sample_size_witness :
    (correlation_analysis lib0 dfCorr2 "x" "y" "pearson" (1 / 20) []).1 =
      errDict "Se necesitan al menos 3 observaciones válidas" ∧
    isError (t_test_one_sample lib0 dfCorr2 "x" 0 (1 / 20) []).1 = false :=
  min_sample_size_spec lib0 dfCorr2 "x" "y" "pearson" (1 / 20) []
    [Cell.num 1, Cell.num 2] [Cell.num 1, Cell.num 2] "x"
    [Cell.num 1, Cell.num 2] 0 (1 / 20) rfl rfl (by decide) rfl rfl

/-- Counterexample for C3 as stated: the one-sample t-test applied to a
numeric column whose non-missing sample has size 1 — below the minimum of 2
any t-test needs — returns a non-error result (with `sample_size` 1) instead
of the error result the claim asserts. -/
theorem one_sample_no_minimum_counterexample :
    isError (t_test_one_sample lib0 dfSingle "x" 0 (1 / 20) []).1 = false ∧
    hasKey (t_test_one_sample lib0 dfSingle "x" 0 (1 / 20) []).1 "sample_size" = true ∧
    lookup (t_test_one_sample lib0 dfSingle "x" 0 (1 / 20) []).1 "sample_size" =
      some (PyVal.num 1) := by
  refine ⟨rfl, rfl, ?_⟩
  have h : lookup (t_test_one_sample lib0 dfSingle "x" 0 (1 / 20) []).1 "sample_size" =
      some (PyVal.num ((1 : ℕ) : ℚ)) := rfl
  rw [h]
  norm_num

/-! ### C6 — invalid correlation method -/

/-- C6 (amended): an invalid correlation method name is rejected with the
descriptive invalid-method error and the history left unchanged — but only
after the rows missing either variable have been dropped and the ≥3-valid-
pairs check has passed; with fewer than 3 valid pairs the insufficient-data
error is returned instead of the invalid-method one.  In neither case does
the call raise. -/
theorem invalid_method_spec (lib : StatsLib) (df : DataFrame)
    (v1 v2 m : String) (a : ℚ) (hist : List Result) (xs ys : List Cell)
    (h1 : dfGet df v1 = some xs) (h2 : dfGet df v2 = some ys)
    (hge : 3 ≤ ((xs.zip ys).filter (fun p => !p.1.isNone && !p.2.isNone)).length)
    (hm1 : m ≠ "pearson") (hm2 : m ≠ "spearman") (hm3 : m ≠ "kendall") :
    (correlation_analysis lib df v1 v2 m a hist).1 =
      errDict "Método no válido. Use: pearson, spearman, o kendall" ∧
    (correlation_analysis lib df v1 v2 m a hist).2 = hist := by
  unfold correlation_analysis
  rw [h1]
  dsimp only
  rw [h2]
  dsimp only
  rw [if_neg (by omega), if_neg (by simp [hm1, hm2, hm3])]
  exact ⟨rfl, rfl⟩

/-- Witness for C6 (amended): with three valid pairs, the method string
`"foo"` yields exactly the invalid-method error and no history append. -/
theorem invalid_method_witness :
    (correlation_analysis lib0 dfCorr3 "x" "y" "foo" (1 / 20) []).1 =
      errDict "Método no válido. Use: pearson, spearman, o kendall" ∧
    (correlation_analysis lib0 dfCorr3 "x" "y" "foo" (1 / 20) []).2 = [] :=
  invalid_method_spec lib0 dfCorr3 "x" "y" "foo" (1 / 20) []
    [Cell.num 1, Cell.num 2, Cell.num 3] [Cell.num 2, Cell.num 4, Cell.num 5]
    rfl rfl (by decide) (by decide) (by decide) (by decide)

/-- Counterexample for C6 as stated: on a table with only two valid pairs
and the invalid method `"foo"`, the call does not reject with the
invalid-method error — the row filtering and the sample-size check run
first, and the insufficient-data error is returned instead. -/
theorem invalid_method_counterexample :
    (correlation_analysis lib0 dfCorr2 "x" "y" "foo" (1 / 20) []).1 =
      errDict "Se necesitan al menos 3 observaciones válidas" ∧
    errDict "Se necesitan al menos 3 observaciones válidas" ≠
      errDict "Método no válido. Use: pearson, spearman, o kendall" := by
  refine ⟨rfl, ?_⟩
  intro h
  simp [errDict] at h

/-! ### Lemmas about the type-mismatch check -/

theorem typeColMsgs_nonobject {c : Col} (hd : c.dtype ≠ Dtype.object) :
    typeColMsgs c = Except.ok [] := by
  unfold typeColMsgs
  rw [if_neg hd]

theorem typeColMsgs_object (c : Col) (hd : c.dtype = Dtype.object)
    (hne : dropna c.values ≠ []) :
    typeColMsgs c = Except.ok
      ((if convRatio c > 8 / 10 then [Msg.numericAsText c.name (convRatio c)] else []) ++
       (if (((((dropna c.values).take 10).filter looksLikeDate).length : ℚ) /
            ((((dropna c.values).take 10).length : ℚ)) > 1 / 2) then
          [Msg.dateAsText c.name] else [])) := by
  have hlen : (dropna c.values).length ≠ 0 := by
    simpa [List.length_eq_zero] using hne
  unfold typeColMsgs
  rw [if_pos hd]
  dsimp only
  rw [if_neg (by rw [List.length_take]; omega)]
  rw [if_pos (by omega)]
  rfl

theorem typeColMsgs_allmissing (c : Col) (hd : c.dtype = Dtype.object)
    (hmiss : dropna c.values = []) :
    typeColMsgs c = Except.error "division by zero" := by
  unfold typeColMsgs
  rw [if_pos hd]
  dsimp only
  rw [if_pos (by rw [hmiss]; rfl)]

theorem typeColMsgs_error_msg {c : Col} {e : String}
    (h : typeColMsgs c = Except.error e) : e = "division by zero" := by
  unfold typeColMsgs at h
  by_cases hd : c.dtype = Dtype.object
  · rw [if_pos hd] at h
    dsimp only at h
    by_cases hz : ((dropna c.values).take 10).length = 0
    · rw [if_pos hz] at h
      injection h with h'
      exact h'.symm
    · rw [if_neg hz] at h
      cases h
  · rw [if_neg hd] at h
    cases h

theorem typeColMsgs_shape {c : Col} {ms : List Msg}
    (h : typeColMsgs c = Except.ok ms) :
    ∀ m ∈ ms, m = Msg.numericAsText c.name (convRatio c) ∨ m = Msg.dateAsText c.name := by
  intro m hm
  by_cases hd : c.dtype = Dtype.object
  · by_cases hne : dropna c.values = []
    · rw [typeColMsgs_allmissing c hd hne] at h
      cases h
    · rw [typeColMsgs_object c hd hne] at h
      injection h with h'
      subst h'
      rcases List.mem_append.mp hm with hmem | hmem
      · left
        by_cases hr : convRatio c > 8 / 10
        · rw [if_pos hr] at hmem
          simpa using hmem
        · rw [if_neg hr] at hmem
          cases hmem
      · right
        split at hmem
        · simpa using hmem
        · cases hmem
  · rw [typeColMsgs_nonobject hd] at h
    injection h with h'
    subst h'
    cases hm

theorem collect_cons {c : Col} {rest : List Col} {msgs : List Msg}
    (h : collectTypeMsgs (c :: rest) = Except.ok msgs) :
    ∃ ms ms2, typeColMsgs c = Except.ok ms ∧
      collectTypeMsgs rest = Except.ok ms2 ∧ msgs = ms ++ ms2 := by
  unfold collectTypeMsgs at h
  cases h1 : typeColMsgs c with
  | error e =>
    rw [h1] at h
    cases h
  | ok ms =>
    rw [h1] at h
    dsimp only at h
    cases h2 : collectTypeMsgs rest with
    | error e =>
      rw [h2] at h
      cases h
    | ok ms2 =>
      rw [h2] at h
      dsimp only at h
      cases h
      exact ⟨ms, ms2, rfl, rfl, rfl⟩

theorem collect_shape : ∀ {cols : List Col} {msgs : List Msg},
    collectTypeMsgs cols = Except.ok msgs →
    ∀ m ∈ msgs, ∃ c ∈ cols,
      m = Msg.numericAsText c.name (convRatio c) ∨ m = Msg.dateAsText c.name := by
  intro cols
  induction cols with
  | nil =>
    intro msgs h m hm
    cases h
    cases hm
  | cons c rest ih =>
    intro msgs h m hm
    obtain ⟨ms, ms2, h1, h2, rfl⟩ := collect_cons h
    rcases List.mem_append.mp hm with hmem | hmem
    · exact ⟨c, List.mem_cons_self c rest, typeColMsgs_shape h1 m hmem⟩
    · obtain ⟨c', hc', hshape⟩ := ih h2 m hmem
      exact ⟨c', List.mem_cons_of_mem c hc', hshape⟩

theorem collect_ok_of_safe : ∀ (cols : List Col),
    (∀ c ∈ cols, c.dtype = Dtype.object → dropna c.values ≠ []) →
    ∃ msgs, collectTypeMsgs cols = Except.ok msgs := by
  intro cols
  induction cols with
  | nil => exact fun _ => ⟨[], rfl⟩
  | cons c rest ih =>
    intro hsafe
    obtain ⟨ms2, h2⟩ := ih (fun c' h' => hsafe c' (List.mem_cons_of_mem c h'))
    have h1 : ∃ ms, typeColMsgs c = Except.ok ms := by
      by_cases hd : c.dtype = Dtype.object
      · exact ⟨_, typeColMsgs_object c hd (hsafe c (List.mem_cons_self c rest) hd)⟩
      · exact ⟨[], typeColMsgs_nonobject hd⟩
    obtain ⟨ms, h1⟩ := h1
    refine ⟨ms ++ ms2, ?_⟩
    unfold collectTypeMsgs
    rw [h1]
    dsimp only
    rw [h2]

theorem collect_numericAsText_iff : ∀ {cols : List Col} {msgs : List Msg},
    collectTypeMsgs cols = Except.ok msgs →
    (∀ c' ∈ cols, c'.dtype = Dtype.object → dropna c'.values ≠ []) →
    (cols.map Col.name).Nodup →
    ∀ c ∈ cols, c.dtype = Dtype.object →
    (Msg.numericAsText c.name (convRatio c) ∈ msgs ↔ convRatio c > 8 / 10) := by
  intro cols
  induction cols with
  | nil =>
    intro msgs _ _ _ c hc
    cases hc
  | cons h rest ih =>
    intro msgs hok hsafe hnd c hc hd
    obtain ⟨ms, ms2, h1, h2, rfl⟩ := collect_cons hok
    rw [List.map_cons] at hnd
    obtain ⟨hnd1, hnd2⟩ := List.nodup_cons.mp hnd
    rcases List.mem_cons.mp hc with rfl | hmem
    · -- the column under scrutiny is the head
      have hms : typeColMsgs c = Except.ok ms := h1
      have hobj := typeColMsgs_object c hd (hsafe c (List.mem_cons_self c rest) hd)
      rw [hms] at hobj
      injection hobj with hms'
      constructor
      · intro hin
        rcases List.mem_append.mp hin with hin | hin
        · rw [hms'] at hin
          rcases List.mem_append.mp hin with hin | hin
          · by_cases hr : convRatio c > 8 / 10
            · exact hr
            · rw [if_neg hr] at hin
              cases hin
          · split at hin
            · simp at hin
            · cases hin
        · obtain ⟨c', hc', hshape⟩ := collect_shape h2 _ hin
          exfalso
          rcases hshape with hsh | hsh
          · have : c.name = c'.name := by
              injection hsh with e1 e2
            exact hnd1 (this ▸ List.mem_map_of_mem Col.name hc')
          · cases hsh
      · intro hr
        refine List.mem_append.mpr (Or.inl ?_)
        rw [hms']
        exact List.mem_append.mpr (Or.inl (by rw [if_pos hr]; simp))
    · -- the column under scrutiny is in the tail
      have hiff := ih h2 (fun c' h' => hsafe c' (List.mem_cons_of_mem h h'))
        hnd2 c hmem hd
      constructor
      · intro hin
        rcases List.mem_append.mp hin with hin | hin
        · exfalso
          rcases typeColMsgs_shape h1 _ hin with hsh | hsh
          · have : c.name = h.name := by
              injection hsh with e1 e2
            exact hnd1 (this ▸ List.mem_map_of_mem Col.name hmem)
          · cases hsh
        · exact hiff.mp hin
      · intro hr
        exact List.mem_append.mpr (Or.inr (hiff.mpr hr))

/-! ### C8 — numeric-stored-as-text heuristic -/

/-- C8 (amended): for every text-typed column of a table whose text columns
all have at least one non-missing value (so the check completes) and whose
column names are distinct, the type-mismatch check samples up to 100
non-missing values and emits the numeric-stored-as-text suggestion carrying
the convertible ratio if and only if strictly more than 80% of the sampled
values parse as a number — accepting both `.` and `,` as decimal separator
and removing spaces.  (At a ratio of exactly 80% the suggestion is not
emitted: the source compares with `>`, not `≥`.)  In particular the
decimal-comma column `"12,5"`, `"7,3"`, `"9,0"` (ratio 1) triggers it. -/
theorem numeric_as_text_spec (df : DataFrame) (c : Col)
    (hc : c ∈ df.cols) (hd : c.dtype = Dtype.object)
    (hnd : (df.cols.map Col.name).Nodup)
    (hsafe : ∀ c' ∈ df.cols, c'.dtype = Dtype.object → dropna c'.values ≠ []) :
    ∃ msgs, collectTypeMsgs df.cols = Except.ok msgs ∧
      (types_findings df).suggestions =
        msgs.map (fun m => ⟨"tipo_datos", Sev.suggestion, m⟩) ∧
      (types_findings df).errors = [] ∧
      (Msg.numericAsText c.name (convRatio c) ∈ msgs ↔ convRatio c > 8 / 10) := by
  obtain ⟨msgs, hok⟩ := collect_ok_of_safe df.cols hsafe
  refine ⟨msgs, hok, ?_, ?_, collect_numericAsText_iff hok hsafe hnd c hc hd⟩
  · unfold types_findings
    rw [hok]
  · unfold types_findings
    rw [hok]

/-- Witness for C8: on the decimal-comma scenario table, the check completes
and the suggestion for column `"medida"` is present (its ratio, 1, exceeds
80%). -/
theorem numeric_as_text_witness :
    ∃ msgs, collectTypeMsgs dfComma.cols = Except.ok msgs ∧
      (types_findings dfComma).suggestions =
        msgs.map (fun m => ⟨"tipo_datos", Sev.suggestion, m⟩) ∧
      (types_findings dfComma).errors = [] ∧
      (Msg.numericAsText colComma.name (convRatio colComma) ∈ msgs ↔
        convRatio colComma > 8 / 10) :=
  numeric_as_text_spec dfComma colComma (by decide) rfl (by decide) (by decide)

/-- Counterexample for C8 as stated: a text column in which exactly 4 of 5
values parse (ratio 4/5, i.e. "at least 80%") produces no suggestion at
all — the source requires strictly more than 80%. -/
theorem numeric_as_text_counterexample :
    convRatio colEighty = 4 / 5 ∧ ((8 : ℚ) / 10 ≤ 4 / 5) ∧
    (types_findings dfEighty).suggestions = [] := by
  have hfilter : (((dropna colEighty.values).take 100).filter cellConvertible).length = 4 := by
    decide
  have hlen : ((dropna colEighty.values).take 100).length = 5 := by decide
  have hratio : convRatio colEighty = 4 / 5 := by
    unfold convRatio
    dsimp only
    rw [hfilter, hlen]
    norm_num
  have hdate : (((dropna colEighty.values).take 10).filter looksLikeDate).length = 0 := by
    decide
  have hdlen : ((dropna colEighty.values).take 10).length = 5 := by decide
  have hcol : typeColMsgs colEighty = Except.ok [] := by
    rw [typeColMsgs_object colEighty rfl (by decide)]
    rw [hratio, hdate, hdlen]
    rw [if_neg (by norm_num), if_neg (by norm_num)]
    rfl
  have hcollect : collectTypeMsgs dfEighty.cols = Except.ok [] := by
    show collectTypeMsgs [colEighty] = Except.ok []
    unfold collectTypeMsgs
    rw [hcol]
    rfl
  refine ⟨hratio, by norm_num, ?_⟩
  unfold types_findings
  rw [hcollect]
  rfl

/-! ### C10 — division by zero on an all-missing text column -/

theorem collect_error_of_allmissing : ∀ (cols : List Col) (c : Col),
    c ∈ cols → c.dtype = Dtype.object → dropna c.values = [] →
    collectTypeMsgs cols = Except.error "division by zero" := by
  intro cols
  induction cols with
  | nil =>
    intro c hc
    cases hc
  | cons h rest ih =>
    intro c hc hd hm
    unfold collectTypeMsgs
    rcases List.mem_cons.mp hc with rfl | hmem
    · rw [typeColMsgs_allmissing c hd hm]
    · cases hh : typeColMsgs h with
      | error e =>
        dsimp only
        rw [typeColMsgs_error_msg hh]
      | ok ms =>
        dsimp only
        rw [ih c hmem hd hm]

/-- C10: a text-typed column with zero non-missing values makes the
date-likeness ratio divide by zero; the exception is caught inside the type
check and becomes exactly one error-severity finding of the type-check
category (so every type suggestion, also for other columns, is suppressed),
the report's `is_valid` is false, and the remaining checks still run and
contribute their findings unchanged. -/
theorem all_missing_text_column_spec (df : DataFrame) (file : String) (c : Col)
    (hc : c ∈ df.cols) (hd : c.dtype = Dtype.object)
    (hmiss : dropna c.values = []) :
    types_findings df =
      ⟨[⟨"tipos_datos", Sev.error, Msg.typeCheckFailed "division by zero"⟩], [], []⟩ ∧
    validator_state df file =
      ((((((structure_findings df file).app
        ⟨[⟨"tipos_datos", Sev.error, Msg.typeCheckFailed "division by zero"⟩], [], []⟩).app
        (missing_findings df)).app
        (duplicates_findings df)).app
        (outliers_findings df)).app
        (consistency_findings df)).app
        (colname_findings df) ∧
    (validate_dataframe df file).is_valid = false := by
  have ht : types_findings df =
      ⟨[⟨"tipos_datos", Sev.error, Msg.typeCheckFailed "division by zero"⟩], [], []⟩ := by
    unfold types_findings
    rw [collect_error_of_allmissing df.cols c hc hd hmiss]
  refine ⟨ht, by unfold validator_state; rw [ht], ?_⟩
  have hmem : (⟨"tipos_datos", Sev.error, Msg.typeCheckFailed "division by zero"⟩ : Finding) ∈
      (validator_state df file).errors := by
    unfold validator_state
    rw [ht]
    simp [Found.app]
  have hne : (validator_state df file).errors.length ≠ 0 := by
    intro h0
    rw [List.length_eq_zero] at h0
    rw [h0] at hmem
    cases hmem
  simpa [validate_dataframe] using hne

/-- Witness for C10: a concrete table with one all-missing text column
produces the single type-check error finding and an invalid report. -/
theorem all_missing_text_column_witness :
    types_findings dfAllMissing =
      ⟨[⟨"tipos_datos", Sev.error, Msg.typeCheckFailed "division by zero"⟩], [], []⟩ ∧
    validator_state dfAllMissing "archivo" =
      ((((((structure_findings dfAllMissing "archivo").app
        ⟨[⟨"tipos_datos", Sev.error, Msg.typeCheckFailed "division by zero"⟩], [], []⟩).app
        (missing_findings dfAllMissing)).app
        (duplicates_findings dfAllMissing)).app
        (outliers_findings dfAllMissing)).app
        (consistency_findings dfAllMissing)).app
        (colname_findings dfAllMissing) ∧
    (validate_dataframe dfAllMissing "archivo").is_valid = false :=
  all_missing_text_column_spec dfAllMissing "archivo"
    ⟨"vacia", Dtype.object, [Cell.none]⟩ (by decide) rfl rfl

end DTP
